import Mathlib

/-!
Shallow embedding of the Fast-Finder core (`src/rust_core/src/lib.rs`): the
metadata classifier (`get_file_kind`, `get_best_date`), the persistent cache
store (`load_cache`, `save_cache`, `load_cached_index`), and the three ranking
policies (`rebuild_index`'s per-entry callback, `search_files`,
`get_recent_files`).

Machine integers are embedded as `Nat`/`Int`: `u64` fields as `Nat`, `i64`
fields as `Int`; the one place the code casts (`as_secs() as i64`) is embedded
explicitly as `toI64`.  The fuzzy matcher (`SkimMatcherV2`, an external crate)
is a parameter `matcher : String → String → Option Int` mirroring its
`fuzzy_match` signature.  The parallel walk delivers entries in a
nondeterministic order; the operations below take the serialized list of
visited entries (any interleaving) as an explicit argument, and the
mutex-guarded sink updates are embedded as atomic steps of a fold, which is
exactly the set of behaviours the per-entry lock admits.
-/

/-- One filesystem entry surfaced to the caller (`struct SearchResult`,
lib.rs lines 14-24).  `file_size` is a `u64`, `score` and `date_value` are
`i64`. -/
structure SearchResult where
  file_name : String
  file_path : String
  file_size : Nat
  is_folder : Bool
  score : Int
  date_value : Int
  date_kind : String
  file_kind : String
  deriving DecidableEq

/-- The persisted snapshot (`struct FileCache`, lib.rs lines 27-31):
`last_updated` is an `i64`, `files` a `Vec<SearchResult>`. -/
structure FileCache where
  last_updated : Int
  files : List SearchResult
  deriving DecidableEq

/-- Model of `std::fs::Metadata` as read by this crate: `mtime`/`ctime` hold
the whole seconds since the Unix epoch when `modified()`/`created()` succeed
and the timestamp is not before the epoch (`none` otherwise, mirroring the
`.ok().and_then(|t| t.duration_since(UNIX_EPOCH).ok())` chain); `atime` is the
last-access time in the same encoding, present in the OS metadata but never
read by the crate; `len` is `metadata.len()` (`u64`); `is_dir` is
`metadata.is_dir()`. -/
structure Metadata where
  mtime : Option Nat
  ctime : Option Nat
  atime : Option Nat
  len : Nat
  is_dir : Bool
  deriving DecidableEq

/-- Model of `std::fs::FileType` as read by the crate (`is_dir`/`is_file`). -/
structure FileType where
  is_dir : Bool
  is_file : Bool
  deriving DecidableEq

/-- Model of one `ignore::DirEntry` handed to a walker callback.  `path_ext`
is `entry.path().extension()` converted to a string (`none` when the file name
has no extension); `file_type` is `entry.file_type()` (`none` when
unavailable); `metadata` is `entry.metadata()` (`none` when it errors). -/
structure DirEntry where
  file_name : String
  file_path : String
  path_ext : Option String
  file_type : Option FileType
  metadata : Option Metadata
  deriving DecidableEq

/-- Character-wise lowercasing: the embedding of `str::to_lowercase()`
(which maps each character to its lowercase form; identical on the ASCII
extensions and labels this crate compares). -/
def strLower (s : String) : String := ⟨s.data.map Char.toLower⟩

/-- Character-wise uppercasing: the embedding of `str::to_uppercase()`. -/
def strUpper (s : String) : String := ⟨s.data.map Char.toUpper⟩

/-- The `u64 → i64` cast performed by `as_secs() as i64` (two's-complement
reinterpretation of the low 64 bits). -/
def toI64 (n : Nat) : Int :=
  if n % 2 ^ 64 < 2 ^ 63 then ((n % 2 ^ 64 : Nat) : Int)
  else ((n % 2 ^ 64 : Nat) : Int) - 2 ^ 64

/-- Embedding of `get_best_date` (lib.rs lines 99-115): each timestamp falls back to `0`
when unavailable; the larger wins, tagged `"Created"` only when the creation
time strictly exceeds the modification time.  The last-access time
(`metadata.atime`) is never read. -/
def get_best_date (metadata : Metadata) : Int × String :=
  let mtime := (metadata.mtime.map toI64).getD 0
  let ctime := (metadata.ctime.map toI64).getD 0
  if ctime > mtime then (ctime, "Created") else (mtime, "Modified")

/-- Embedding of `get_file_kind` (lib.rs lines 57-96).  The Rust function receives the
path; only `path.extension().and_then(|e| e.to_str())` is consulted, which is
the `ext` argument here.  Note the `match` compares the extension exactly as
found on the path (no lowercasing). -/
def get_file_kind (ext : Option String) (is_folder : Bool) : String :=
  if is_folder then "Folder"
  else
    match ext with
    | some "pdf" => "PDF Document"
    | some "doc" | some "docx" => "Word Document"
    | some "xls" | some "xlsx" => "Excel Spreadsheet"
    | some "ppt" | some "pptx" => "Presentation"
    | some "txt" => "Plain Text"
    | some "md" => "Markdown"
    | some "html" | some "htm" => "HTML Document"
    | some "css" => "CSS Stylesheet"
    | some "js" => "JavaScript"
    | some "ts" => "TypeScript"
    | some "json" => "JSON"
    | some "py" => "Python Script"
    | some "rs" => "Rust Source"
    | some "swift" => "Swift Source"
    | some "java" => "Java Source"
    | some "go" => "Go Source"
    | some "c" | some "h" => "C Source"
    | some "cpp" | some "hpp" => "C++ Source"
    | some "jpg" | some "jpeg" => "JPEG Image"
    | some "png" => "PNG Image"
    | some "gif" => "GIF Image"
    | some "heic" => "HEIC Image"
    | some "svg" => "SVG Image"
    | some "mp4" => "MP4 Video"
    | some "mov" => "QuickTime Movie"
    | some "mp3" => "MP3 Audio"
    | some "wav" => "WAV Audio"
    | some "zip" => "ZIP Archive"
    | some "dmg" => "Disk Image"
    | some "app" => "Application"
    | some e => strUpper e ++ " File"
    | none => "Document"

/-- The recognized-extension table of `get_file_kind`, as an association list
(same keys and labels as the `match` arms of lib.rs lines 63-92). -/
def kindTable : List (String × String) :=
  [("pdf", "PDF Document"), ("doc", "Word Document"), ("docx", "Word Document"),
   ("xls", "Excel Spreadsheet"), ("xlsx", "Excel Spreadsheet"),
   ("ppt", "Presentation"), ("pptx", "Presentation"),
   ("txt", "Plain Text"), ("md", "Markdown"),
   ("html", "HTML Document"), ("htm", "HTML Document"),
   ("css", "CSS Stylesheet"), ("js", "JavaScript"), ("ts", "TypeScript"),
   ("json", "JSON"), ("py", "Python Script"), ("rs", "Rust Source"),
   ("swift", "Swift Source"), ("java", "Java Source"), ("go", "Go Source"),
   ("c", "C Source"), ("h", "C Source"), ("cpp", "C++ Source"),
   ("hpp", "C++ Source"), ("jpg", "JPEG Image"), ("jpeg", "JPEG Image"),
   ("png", "PNG Image"), ("gif", "GIF Image"), ("heic", "HEIC Image"),
   ("svg", "SVG Image"), ("mp4", "MP4 Video"), ("mov", "QuickTime Movie"),
   ("mp3", "MP3 Audio"), ("wav", "WAV Audio"), ("zip", "ZIP Archive"),
   ("dmg", "Disk Image"), ("app", "Application")]

/-- Modelled from the spec: `classify_kind` "inspects the lowercase file
extension against a fixed table" (spec section 4.1).  It is `get_file_kind`
applied to the lowercased extension; the spec-predicted behaviour, to be
compared with the code's `get_file_kind`. -/
def classify_kind_spec (ext : Option String) (is_folder : Bool) : String :=
  get_file_kind (ext.map strLower) is_folder

/-! JSON-level model of the cache store.  serde_json is embedded at the JSON
value level: a readable cache file either parses to a `Json` value or is
malformed; `serde_json::to_writer` with the derived `Serialize` writes the
object encoded by `encodeFileCache`, and the derived `Deserialize` is
`decodeFileCache` (field lookup by name, type- and range-checked numbers,
unknown fields ignored, any missing or ill-typed field failing the whole
deserialization). -/

/-- A parsed JSON value (integer-valued numbers, the only ones this schema
produces). -/
inductive Json where
  | null
  | bool (b : Bool)
  | num (n : Int)
  | str (s : String)
  | arr (elems : List Json)
  | obj (fields : List (String × Json))

/-- Reading a JSON value as a string. -/
def Json.asStr : Json → Option String
  | .str s => some s
  | _ => none

/-- Reading a JSON value as a boolean. -/
def Json.asBool : Json → Option Bool
  | .bool b => some b
  | _ => none

/-- Reading a JSON value as an array. -/
def Json.asArr : Json → Option (List Json)
  | .arr elems => some elems
  | _ => none

/-- Deserializing a JSON number into a `u64` (range-checked, as serde does;
the bound is the literal value of `2 ^ 64`). -/
def Json.asU64 : Json → Option Nat
  | .num n => if 0 ≤ n ∧ n < 18446744073709551616 then some n.toNat else none
  | _ => none

/-- Deserializing a JSON number into an `i64` (range-checked, as serde does;
the bounds are the literal values of `-(2 ^ 63)` and `2 ^ 63`). -/
def Json.asI64 : Json → Option Int
  | .num n => if -9223372036854775808 ≤ n ∧ n < 9223372036854775808 then some n else none
  | _ => none

/-- The derived `Serialize` for `SearchResult`: an object with the eight
fields in declaration order. -/
def encodeSearchResult (r : SearchResult) : Json :=
  .obj [("file_name", .str r.file_name), ("file_path", .str r.file_path),
        ("file_size", .num (r.file_size : Int)), ("is_folder", .bool r.is_folder),
        ("score", .num r.score), ("date_value", .num r.date_value),
        ("date_kind", .str r.date_kind), ("file_kind", .str r.file_kind)]

/-- The derived `Deserialize` for `SearchResult`. -/
def decodeSearchResult (j : Json) : Option SearchResult :=
  match j with
  | .obj fs => do
      let file_name ← (fs.lookup "file_name").bind Json.asStr
      let file_path ← (fs.lookup "file_path").bind Json.asStr
      let file_size ← (fs.lookup "file_size").bind Json.asU64
      let is_folder ← (fs.lookup "is_folder").bind Json.asBool
      let score ← (fs.lookup "score").bind Json.asI64
      let date_value ← (fs.lookup "date_value").bind Json.asI64
      let date_kind ← (fs.lookup "date_kind").bind Json.asStr
      let file_kind ← (fs.lookup "file_kind").bind Json.asStr
      some ⟨file_name, file_path, file_size, is_folder, score, date_value,
            date_kind, file_kind⟩
  | _ => none

/-- The derived `Serialize` for `FileCache`. -/
def encodeFileCache (c : FileCache) : Json :=
  .obj [("last_updated", .num c.last_updated),
        ("files", .arr (c.files.map encodeSearchResult))]

/-- The derived `Deserialize` for `FileCache`. -/
def decodeFileCache (j : Json) : Option FileCache :=
  match j with
  | .obj fs => do
      let last_updated ← (fs.lookup "last_updated").bind Json.asI64
      let filesJson ← (fs.lookup "files").bind Json.asArr
      let files ← filesJson.mapM decodeSearchResult
      some ⟨last_updated, files⟩
  | _ => none

/-- State of the cache file when it exists: its bytes either parse as a JSON
value or are malformed. -/
inductive FileContent where
  | invalid
  | valid (j : Json)

/-- Embedding of `FileCache::default()` (derived `Default`): `last_updated = 0`, empty
`files`. -/
def emptyCache : FileCache := ⟨0, []⟩

/-- Embedding of `load_cache` (lib.rs lines 38-46).  The cache-file state is the argument:
`none` when `File::open` fails (missing file), `some .invalid` when the bytes
are not JSON, `some (.valid j)` when they parse to `j`.  Every failure path
(`else`-branch, parse error, or deserialization error via
`unwrap_or_default()`) yields `FileCache::default()`. -/
def load_cache (file : Option FileContent) : FileCache :=
  match file with
  | none => emptyCache
  | some .invalid => emptyCache
  | some (.valid j) => (decodeFileCache j).getD emptyCache

/-- Embedding of `load_cached_index` (lib.rs lines 119-122). -/
def load_cached_index (file : Option FileContent) : List SearchResult :=
  (load_cache file).files

/-- Embedding of `save_cache` (lib.rs lines 48-54): when `File::create` succeeds
(`createOk`, the healthy-medium case) the file afterwards holds the serialized
cache; when it fails the write is skipped and the old state remains. -/
def save_cache (cache : FileCache) (createOk : Bool)
    (old : Option FileContent) : Option FileContent :=
  if createOk then some (.valid (encodeFileCache cache)) else old

/-! The rebuild-index walker callback (lib.rs lines 167-204). -/

/-- The extension allowlist of `rebuild_index` (lib.rs lines 135-144); the
`HashSet` is embedded as the list of its elements. -/
def allowed_extensions : List String :=
  ["pdf", "doc", "docx", "txt", "rtf", "md", "pages", "odt",
   "xls", "xlsx", "csv", "numbers",
   "ppt", "pptx", "key",
   "jpg", "jpeg", "png", "gif", "heic", "webp", "svg", "psd", "ai",
   "mp4", "mov", "avi", "mkv", "webm",
   "mp3", "wav", "aac", "flac", "m4a",
   "py", "js", "ts", "rs", "swift", "java", "go", "html", "css", "json",
   "zip", "tar", "gz", "rar", "7z", "dmg"]

/-- The extension filter of the `rebuild_index` callback (lib.rs lines
171-180): an entry with an extension passes only when the lowercased
extension is in the allowlist (whether or not it is a directory); an entry
without an extension passes unless `entry.file_type()` resolves it to a
regular file (`.map(|ft| ft.is_file()).unwrap_or(false)`). -/
def rebuild_accepts (entry : DirEntry) : Bool :=
  match entry.path_ext with
  | some ext => allowed_extensions.contains (strLower ext)
  | none => !((entry.file_type.map FileType.is_file).getD false)

/-- The `SearchResult` the `rebuild_index` callback pushes for one entry
(lib.rs lines 182-200): only entries passing the extension filter whose
`entry.metadata()` succeeds are pushed; `file_size` is `metadata.len()`,
`score` equals `date_value`. -/
def rebuild_result (entry : DirEntry) : Option SearchResult :=
  if rebuild_accepts entry then
    match entry.metadata with
    | some md =>
        some { file_name := entry.file_name, file_path := entry.file_path,
               file_size := md.len, is_folder := md.is_dir,
               score := (get_best_date md).1,
               date_value := (get_best_date md).1,
               date_kind := (get_best_date md).2,
               file_kind := get_file_kind entry.path_ext md.is_dir }
    | none => none
  else none

/-! The `search_files` pipeline (lib.rs lines 226-296). -/

/-- The `SearchResult` the `search_files` callback builds for an entry whose
name matched with `score` (lib.rs lines 255-280): `is_folder` comes from
`entry.file_type()` (`false` when unavailable); size and dates come from
`entry.metadata()`, falling back to `(0, 0, "Unknown")` when it errors. -/
def search_mk (score : Int) (entry : DirEntry) : SearchResult :=
  let is_folder := (entry.file_type.map FileType.is_dir).getD false
  match entry.metadata with
  | some md =>
      { file_name := entry.file_name, file_path := entry.file_path,
        file_size := md.len, is_folder := is_folder, score := score,
        date_value := (get_best_date md).1,
        date_kind := (get_best_date md).2,
        file_kind := get_file_kind entry.path_ext is_folder }
  | none =>
      { file_name := entry.file_name, file_path := entry.file_path,
        file_size := 0, is_folder := is_folder, score := score,
        date_value := 0, date_kind := "Unknown",
        file_kind := get_file_kind entry.path_ext is_folder }

/-- One guarded push into the shared sink (lib.rs lines 269-284): the length
check and the push happen under the same `results.lock()` acquisition, so each
callback performs this step atomically; a full sink is left unchanged (the
worker then signals `Quit`). -/
def sink_push (sink : List SearchResult) (r : SearchResult) : List SearchResult :=
  if sink.length < 2000 then sink ++ [r] else sink

/-- The whole `search_files` callback for one entry: entries whose name the
matcher rejects leave the sink unchanged; matched entries go through the
guarded push. -/
def search_step (matcher : String → String → Option Int) (query : String)
    (sink : List SearchResult) (entry : DirEntry) : List SearchResult :=
  match matcher entry.file_name query with
  | some score => sink_push sink (search_mk score entry)
  | none => sink

/-- The sink contents after the walk: the callback folded over the serialized
sequence of visited entries, starting from the empty sink. -/
def collect_matches (matcher : String → String → Option Int) (query : String)
    (entries : List DirEntry) : List SearchResult :=
  entries.foldl (search_step matcher query) []

/-- Score-descending order: the embedding of the comparator
`|a, b| b.score.cmp(&a.score)` of lib.rs line 292. -/
def scoreDescRel (a b : SearchResult) : Prop := b.score ≤ a.score

instance : DecidableRel scoreDescRel := fun a b => Int.decLe b.score a.score

instance : IsTotal SearchResult scoreDescRel :=
  ⟨fun a b => (Int.le_total b.score a.score).imp id id⟩

instance : IsTrans SearchResult scoreDescRel :=
  ⟨fun _ _ _ hab hbc => le_trans hbc hab⟩

/-- Recency-descending order: the embedding of the comparator
`|a, b| b.date_value.cmp(&a.date_value)` of lib.rs lines 209 and 315. -/
def dateDescRel (a b : SearchResult) : Prop := b.date_value ≤ a.date_value

instance : DecidableRel dateDescRel := fun a b => Int.decLe b.date_value a.date_value

instance : IsTotal SearchResult dateDescRel :=
  ⟨fun a b => (Int.le_total b.date_value a.date_value).imp id id⟩

instance : IsTrans SearchResult dateDescRel :=
  ⟨fun _ _ _ hab hbc => le_trans hbc hab⟩

/-- Embedding of `search_files` (lib.rs lines 226-296).  The guard embeds
`query.trim().is_empty()`, which holds exactly when every character of the
query is whitespace (in particular for the empty query); afterwards the sink
is sorted score-descending (the stable `sort_by` is embedded as insertion
sort) and truncated to 50. -/
def search_files (matcher : String → String → Option Int) (query : String)
    (entries : List DirEntry) : List SearchResult :=
  if query.data.all Char.isWhitespace then []
  else
    (List.insertionSort scoreDescRel (collect_matches matcher query entries)).take 50

/-- Embedding of `get_recent_files` (lib.rs lines 298-319): load the cache, keep the files
with `date_value > now - 604800`, sort them recency-descending, truncate to
50.  `now` is the wall-clock seconds at the call. -/
def get_recent_files (file : Option FileContent) (now : Int) : List SearchResult :=
  let cache := load_cache file
  let week_ago := now - 60 * 60 * 24 * 7
  let recent := cache.files.filter (fun f => week_ago < f.date_value)
  (List.insertionSort dateDescRel recent).take 50

/-! Validity predicates capturing the Rust field types: in the source,
`file_size` is a `u64` and `score`, `date_value`, `last_updated` are `i64`,
so their values are range-bounded by the type; in the `Nat`/`Int` embedding
the bounds are explicit side conditions. -/

/-- Range of an `i64` value. -/
def InI64 (n : Int) : Prop := -(2 ^ 63) ≤ n ∧ n < 2 ^ 63

/-- Field ranges a `SearchResult` carries in the Rust types. -/
def ValidResult (r : SearchResult) : Prop :=
  r.file_size < 2 ^ 64 ∧ InI64 r.score ∧ InI64 r.date_value

/-- Field ranges a `FileCache` carries in the Rust types. -/
def ValidCache (c : FileCache) : Prop :=
  InI64 c.last_updated ∧ ∀ r ∈ c.files, ValidResult r

/-! Concrete inputs used by witnesses and counterexamples. -/

/-- Metadata of a file created at 9s, modified at 5s, accessed at 777s. -/
def mdC1 : Metadata := ⟨some 5, some 9, some 777, 0, false⟩

/-- A cached entry whose `date_value` lies far in the future of the call
time used below. -/
def futureResult : SearchResult :=
  ⟨"f.txt", "/h/f.txt", 10, false, 0, 2000000, "Modified", "Plain Text"⟩

/-- A healthy cache file holding exactly `futureResult`. -/
def futureCacheFile : Option FileContent :=
  some (.valid (encodeFileCache ⟨0, [futureResult]⟩))

/-- A small well-typed cache used to witness the round-trip property. -/
def cacheC5 : FileCache :=
  ⟨7, [⟨"a.txt", "/h/a.txt", 3, false, 1, 2, "Modified", "Plain Text"⟩]⟩

/-- An ordinary text-file entry used to witness the blank-query property. -/
def entryC6 : DirEntry :=
  ⟨"a.txt", "/h/a.txt", some "txt", some ⟨false, true⟩,
   some ⟨some 1, some 2, some 3, 4, false⟩⟩

/-- A directory whose name ends in `.old`: its extension is present but not
in the allowlist. -/
def oldDirEntry : DirEntry :=
  ⟨"Photos.old", "/h/Documents/Photos.old", some "old", some ⟨true, false⟩,
   some ⟨some 10, some 20, some 30, 64, true⟩⟩

/-- An allowlisted PDF file entry. -/
def pdfEntryC7 : DirEntry :=
  ⟨"r.pdf", "/h/Documents/r.pdf", some "pdf", some ⟨false, true⟩,
   some ⟨some 10, some 20, some 30, 128, false⟩⟩

/-- A folder entry whose metadata reports a 96-byte directory size. -/
def folderEntryC9 : DirEntry :=
  ⟨"Projects", "/h/Projects", none, some ⟨true, false⟩,
   some ⟨some 100, some 90, some 80, 96, true⟩⟩

/-! Helper lemmas. -/

/-- On values below `2 ^ 63` the `u64 → i64` cast is the identity. -/
theorem toI64_of_lt (n : Nat) (h : n < 2 ^ 63) : toI64 n = (n : Int) := by
  have h64 : n % 2 ^ 64 = n := Nat.mod_eq_of_lt (lt_trans h (by norm_num))
  unfold toI64
  rw [h64, if_pos h]

/-- Casting then defaulting commutes with defaulting then casting. -/
theorem map_toI64_getD (o : Option Nat) : (o.map toI64).getD 0 = toI64 (o.getD 0) := by
  cases o with
  | none => simp [toI64]
  | some n => rfl

/-- A guarded push never grows the sink past 2000. -/
theorem sink_push_length_le (sink : List SearchResult) (r : SearchResult)
    (h : sink.length ≤ 2000) : (sink_push sink r).length ≤ 2000 := by
  unfold sink_push
  split
  · simpa using by omega
  · exact h

/-- Folding guarded pushes never grows the sink past 2000. -/
theorem foldl_sink_push_le (l : List SearchResult) (sink : List SearchResult)
    (h : sink.length ≤ 2000) : (l.foldl sink_push sink).length ≤ 2000 := by
  induction l generalizing sink with
  | nil => exact h
  | cons a t ih => exact ih _ (sink_push_length_le sink a h)

/-- One search callback step never grows the sink past 2000. -/
theorem search_step_length_le (matcher : String → String → Option Int)
    (query : String) (sink : List SearchResult) (entry : DirEntry)
    (h : sink.length ≤ 2000) :
    (search_step matcher query sink entry).length ≤ 2000 := by
  unfold search_step
  cases matcher entry.file_name query with
  | none => exact h
  | some score => exact sink_push_length_le sink _ h

/-- Folding the whole search callback never grows the sink past 2000. -/
theorem foldl_search_step_le (matcher : String → String → Option Int)
    (query : String) (l : List DirEntry) (sink : List SearchResult)
    (h : sink.length ≤ 2000) :
    (l.foldl (search_step matcher query) sink).length ≤ 2000 := by
  induction l generalizing sink with
  | nil => exact h
  | cons a t ih => exact ih _ (search_step_length_le matcher query sink a h)

/-! Claim theorems. -/

/-- C1: for every metadata value with timestamps in the `i64` range (as every
real filesystem timestamp is), `get_best_date` returns as `date_value` the
maximum of the modification and creation times in whole seconds since the
epoch (each taken as 0 when unavailable), tags it `"Created"` exactly when
the creation time strictly exceeds the modification time and `"Modified"`
otherwise, and its result never depends on the last-access time. -/
theorem get_best_date_spec (md : Metadata)
    (hm : md.mtime.getD 0 < 2 ^ 63) (hc : md.ctime.getD 0 < 2 ^ 63) :
    (get_best_date md).1 =
      max ((md.mtime.getD 0 : Nat) : Int) ((md.ctime.getD 0 : Nat) : Int) ∧
    ((get_best_date md).2 = "Created" ↔
      ((md.mtime.getD 0 : Nat) : Int) < ((md.ctime.getD 0 : Nat) : Int)) ∧
    ((get_best_date md).2 = "Modified" ↔
      ¬ ((md.mtime.getD 0 : Nat) : Int) < ((md.ctime.getD 0 : Nat) : Int)) ∧
    (∀ a, get_best_date { md with atime := a } = get_best_date md) := by
  have hmt : (md.mtime.map toI64).getD 0 = ((md.mtime.getD 0 : Nat) : Int) := by
    rw [map_toI64_getD, toI64_of_lt _ hm]
  have hct : (md.ctime.map toI64).getD 0 = ((md.ctime.getD 0 : Nat) : Int) := by
    rw [map_toI64_getD, toI64_of_lt _ hc]
  refine ⟨?_, ?_, ?_, fun a => rfl⟩ <;>
    · simp only [get_best_date, hmt, hct]
      by_cases h : ((md.mtime.getD 0 : Nat) : Int) < ((md.ctime.getD 0 : Nat) : Int) <;>
        simp [h, max_def] <;> omega

/-- Witness for C1 at a concrete metadata value. -/
theorem get_best_date_spec_witness :
    mdC1.mtime.getD 0 < 2 ^ 63 ∧ mdC1.ctime.getD 0 < 2 ^ 63 ∧
    ((get_best_date mdC1).1 =
      max ((mdC1.mtime.getD 0 : Nat) : Int) ((mdC1.ctime.getD 0 : Nat) : Int) ∧
    ((get_best_date mdC1).2 = "Created" ↔
      ((mdC1.mtime.getD 0 : Nat) : Int) < ((mdC1.ctime.getD 0 : Nat) : Int)) ∧
    ((get_best_date mdC1).2 = "Modified" ↔
      ¬ ((mdC1.mtime.getD 0 : Nat) : Int) < ((mdC1.ctime.getD 0 : Nat) : Int)) ∧
    (∀ a, get_best_date { mdC1 with atime := a } = get_best_date mdC1)) :=
  ⟨by decide, by decide, get_best_date_spec mdC1 (by decide) (by decide)⟩

/-- C2: for every matcher, query and walk, the output of `search_files` is
sorted by score in non-increasing order, has at most 50 entries, and is never
longer than the bounded candidate set collected during the walk. -/
theorem search_files_sorted_truncated (matcher : String → String → Option Int)
    (query : String) (entries : List DirEntry) :
    List.Sorted scoreDescRel (search_files matcher query entries) ∧
    (search_files matcher query entries).length ≤ 50 ∧
    (search_files matcher query entries).length ≤
      (collect_matches matcher query entries).length := by
  unfold search_files
  by_cases h : query.data.all Char.isWhitespace
  · simp [h]
  · have hif : (if query.data.all Char.isWhitespace then ([] : List SearchResult)
        else (List.insertionSort scoreDescRel
          (collect_matches matcher query entries)).take 50) =
        (List.insertionSort scoreDescRel
          (collect_matches matcher query entries)).take 50 := by
      simp [h]
    rw [hif]
    refine ⟨List.Pairwise.sublist (List.take_sublist _ _)
      (List.sorted_insertionSort _ _), ?_, ?_⟩
    · rw [List.length_take]
      exact Nat.min_le_left _ _
    · rw [List.length_take, List.length_insertionSort]
      exact Nat.min_le_right _ _

/-- C4: on every failing cache-file state (missing file, malformed JSON, or
JSON that does not deserialize to a `FileCache`), `load_cache` returns the
default cache with `last_updated = 0` and no files, so `load_cached_index`
returns the empty sequence; by construction it never returns an error. -/
theorem load_cache_failure_default (file : Option FileContent)
    (h : file = none ∨ file = some .invalid ∨
         ∃ j, file = some (.valid j) ∧ decodeFileCache j = none) :
    load_cache file = ⟨0, []⟩ ∧ load_cached_index file = [] := by
  have hd : load_cache file = ⟨0, []⟩ := by
    rcases h with h | h | ⟨j, hj, hdec⟩
    · rw [h]; rfl
    · rw [h]; rfl
    · rw [hj]
      simp [load_cache, hdec, emptyCache]
  exact ⟨hd, by rw [load_cached_index, hd]⟩

/-- Witness for C4 on a malformed cache file. -/
theorem load_cache_failure_default_witness :
    ((some FileContent.invalid : Option FileContent) = none ∨
     (some FileContent.invalid : Option FileContent) = some .invalid ∨
     ∃ j, (some FileContent.invalid : Option FileContent) = some (.valid j) ∧
       decodeFileCache j = none) ∧
    load_cache (some .invalid) = ⟨0, []⟩ ∧ load_cached_index (some .invalid) = [] :=
  ⟨Or.inr (Or.inl rfl), load_cache_failure_default _ (Or.inr (Or.inl rfl))⟩

/-- C6: for every query that is empty or consists only of whitespace,
`search_files` returns the empty sequence, whatever matcher and walk it is
run with. -/
theorem search_files_blank_query (matcher : String → String → Option Int)
    (query : String) (entries : List DirEntry)
    (h : query = "" ∨ query.data.all Char.isWhitespace = true) :
    search_files matcher query entries = [] := by
  have hb : query.data.all Char.isWhitespace = true := by
    rcases h with h | h
    · rw [h]; rfl
    · exact h
  simp [search_files, hb]

/-- Witness for C6 on the one-space query. -/
theorem search_files_blank_query_witness :
    ((" " : String) = "" ∨ (" " : String).data.all Char.isWhitespace = true) ∧
    search_files (fun _ _ => some 1) " " [entryC6] = [] :=
  ⟨Or.inr (by decide),
   search_files_blank_query (fun _ _ => some 1) " " [entryC6] (Or.inr (by decide))⟩

/-- C10: under every serialization of the workers' guarded pushes (each
length check and push is one atomic step, performed under the one lock), the
shared sink never exceeds 2000 entries — starting empty, after any sequence
of attempted pushes its length is at most 2000 — and in particular the
candidate set the sorted-and-truncated output is drawn from has at most 2000
entries. -/
theorem sink_never_exceeds_cap (pushes : List SearchResult)
    (matcher : String → String → Option Int) (query : String)
    (entries : List DirEntry) :
    (pushes.foldl sink_push []).length ≤ 2000 ∧
    (collect_matches matcher query entries).length ≤ 2000 := by
  constructor
  · exact foldl_sink_push_le pushes [] (by simp)
  · exact foldl_search_step_le matcher query entries [] (by simp)

/-- C3 (amended): every entry `get_recent_files` returns has `date_value`
strictly greater than the call time minus 604800 seconds (entries older than
seven days are excluded; nothing excludes a `date_value` ahead of the call
time), the sequence is sorted descending by `date_value`, and it has at most
50 entries. -/
theorem get_recent_files_window_sorted (file : Option FileContent) (now : Int) :
    (∀ r ∈ get_recent_files file now, now - 604800 < r.date_value) ∧
    List.Sorted dateDescRel (get_recent_files file now) ∧
    (get_recent_files file now).length ≤ 50 := by
  refine ⟨?_, ?_, ?_⟩
  · intro r hr
    have h1 : r ∈ List.insertionSort dateDescRel
        ((load_cache file).files.filter
          (fun f => now - 60 * 60 * 24 * 7 < f.date_value)) :=
      List.take_subset _ _ hr
    have h2 : r ∈ (load_cache file).files.filter
        (fun f => now - 60 * 60 * 24 * 7 < f.date_value) :=
      (List.perm_insertionSort _ _).mem_iff.mp h1
    have h3 := (List.mem_filter.mp h2).2
    have h4 : now - 60 * 60 * 24 * 7 < r.date_value := by
      exact of_decide_eq_true h3
    omega
  · exact List.Pairwise.sublist (List.take_sublist _ _)
      (List.sorted_insertionSort _ _)
  · rw [get_recent_files, List.length_take]
    exact Nat.min_le_left _ _

/-- Counterexample to C3 as stated: on a cache holding one entry whose
`date_value` is 1000000 seconds ahead of the call time 1000000,
`get_recent_files` returns that entry although its `date_value` is not within
604800 seconds of the call time. -/
theorem get_recent_files_returns_future_entry :
    get_recent_files futureCacheFile 1000000 = [futureResult] ∧
    1000000 + 604800 < futureResult.date_value := by
  constructor
  · decide
  · decide

/-- Range-respecting `u64` values deserialize to themselves. -/
theorem asU64_num (n : Nat) (h : n < 2 ^ 64) :
    Json.asU64 (.num (n : Int)) = some n := by
  simp [Json.asU64]
  omega

/-- Range-respecting `i64` values deserialize to themselves. -/
theorem asI64_num (n : Int) (h1 : -(2 ^ 63) ≤ n) (h2 : n < 2 ^ 63) :
    Json.asI64 (.num n) = some n := by
  simp [Json.asI64]
  omega

/-- Field lookup followed by `u64` deserialization, for a field holding a
range-respecting number. -/
theorem lookup_bind_asU64 (fs : List (String × Json)) (k : String) (n : Nat)
    (hl : fs.lookup k = some (.num (n : Int))) (h : n < 2 ^ 64) :
    (fs.lookup k).bind Json.asU64 = some n := by
  rw [hl, Option.some_bind, asU64_num n h]

/-- Field lookup followed by `i64` deserialization, for a field holding a
range-respecting number. -/
theorem lookup_bind_asI64 (fs : List (String × Json)) (k : String) (n : Int)
    (hl : fs.lookup k = some (.num n))
    (h1 : -(2 ^ 63) ≤ n) (h2 : n < 2 ^ 63) :
    (fs.lookup k).bind Json.asI64 = some n := by
  rw [hl, Option.some_bind, asI64_num n h1 h2]

/-- Decoding an object whose eight field lookups all succeed with the fields
of `r` yields `r`. -/
theorem decodeSearchResult_obj (fs : List (String × Json)) (r : SearchResult)
    (f1 : (fs.lookup "file_name").bind Json.asStr = some r.file_name)
    (f2 : (fs.lookup "file_path").bind Json.asStr = some r.file_path)
    (f3 : (fs.lookup "file_size").bind Json.asU64 = some r.file_size)
    (f4 : (fs.lookup "is_folder").bind Json.asBool = some r.is_folder)
    (f5 : (fs.lookup "score").bind Json.asI64 = some r.score)
    (f6 : (fs.lookup "date_value").bind Json.asI64 = some r.date_value)
    (f7 : (fs.lookup "date_kind").bind Json.asStr = some r.date_kind)
    (f8 : (fs.lookup "file_kind").bind Json.asStr = some r.file_kind) :
    decodeSearchResult (.obj fs) = some r := by
  rw [decodeSearchResult, f1, f2, f3, f4, f5, f6, f7, f8]
  simp only [Option.bind_eq_bind, Option.some_bind]

/-- Round trip of one `SearchResult` through the derived serde instances. -/
theorem decode_encode_result (r : SearchResult) (h : ValidResult r) :
    decodeSearchResult (encodeSearchResult r) = some r := by
  obtain ⟨h1, ⟨h2a, h2b⟩, ⟨h3a, h3b⟩⟩ := h
  have hobj : encodeSearchResult r =
      .obj [("file_name", .str r.file_name), ("file_path", .str r.file_path),
            ("file_size", .num (r.file_size : Int)),
            ("is_folder", .bool r.is_folder),
            ("score", .num r.score), ("date_value", .num r.date_value),
            ("date_kind", .str r.date_kind), ("file_kind", .str r.file_kind)] := rfl
  rw [hobj]
  exact decodeSearchResult_obj _ r rfl rfl
    (lookup_bind_asU64 _ _ _ rfl h1) rfl
    (lookup_bind_asI64 _ _ _ rfl h2a h2b)
    (lookup_bind_asI64 _ _ _ rfl h3a h3b) rfl rfl

/-- Round trip of a list of results through the inner loop of `List.mapM`. -/
theorem mapM_loop_decode_encode (l : List SearchResult)
    (h : ∀ r ∈ l, ValidResult r) (acc : List SearchResult) :
    List.mapM.loop decodeSearchResult (l.map encodeSearchResult) acc =
      some (acc.reverse ++ l) := by
  induction l generalizing acc with
  | nil => simp [List.mapM.loop]
  | cons a t ih =>
      have ha := decode_encode_result a (h a (by simp))
      have ht := ih (fun r hr => h r (by simp [hr])) (a :: acc)
      simp [List.mapM.loop, ha, ht]

/-- Round trip of a list of results through the derived serde instances. -/
theorem mapM_decode_encode (l : List SearchResult) (h : ∀ r ∈ l, ValidResult r) :
    (l.map encodeSearchResult).mapM decodeSearchResult = some l := by
  rw [List.mapM]
  simpa using mapM_loop_decode_encode l h []

/-- Round trip of a whole `FileCache` through the derived serde instances. -/
theorem decode_encode_cache (c : FileCache) (h : ValidCache c) :
    decodeFileCache (encodeFileCache c) = some c := by
  obtain ⟨⟨hla, hlb⟩, hf⟩ := h
  have hl1 : -9223372036854775808 ≤ c.last_updated := by omega
  have hl2 : c.last_updated < 9223372036854775808 := by omega
  simp [encodeFileCache, decodeFileCache, List.lookup, Json.asI64,
    Json.asArr, hl1, hl2, mapM_decode_encode c.files hf,
    mapM_loop_decode_encode c.files hf []]

/-- C5: for every cache whose fields satisfy the Rust integer ranges, saving
on a healthy medium and loading back yields a cache with the same `files`
sequence (same entries in the same order) and the same `last_updated`. -/
theorem save_load_roundtrip (c : FileCache) (old : Option FileContent)
    (h : ValidCache c) :
    (load_cache (save_cache c true old)).files = c.files ∧
    (load_cache (save_cache c true old)).last_updated = c.last_updated := by
  have hd := decode_encode_cache c h
  simp [save_cache, load_cache, hd]

/-- Witness for C5 on a small concrete cache. -/
theorem save_load_roundtrip_witness :
    ValidCache cacheC5 ∧
    ((load_cache (save_cache cacheC5 true none)).files = cacheC5.files ∧
     (load_cache (save_cache cacheC5 true none)).last_updated = cacheC5.last_updated) := by
  have hv : ValidCache cacheC5 := by
    refine ⟨⟨by decide, by decide⟩, ?_⟩
    intro r hr
    have : r = cacheC5.files.head (by decide) := by
      simpa [cacheC5] using hr
    rw [this]
    exact ⟨by decide, ⟨by decide, by decide⟩, ⟨by decide, by decide⟩⟩
  exact ⟨hv, save_load_roundtrip cacheC5 none hv⟩

/-- C8 (amended): `get_file_kind` is total by construction; it returns
`"Folder"` whenever `is_folder` is true; otherwise it matches the extension
case-sensitively (exactly as present on the path) against the fixed table,
returns `"<EXT> File"` with the extension uppercased when the extension is
present but not a table key, and returns `"Document"` when there is no
extension. -/
theorem get_file_kind_characterization (ext : Option String) :
    get_file_kind ext true = "Folder" ∧
    get_file_kind none false = "Document" ∧
    (∀ e, get_file_kind (some e) false =
      (kindTable.lookup e).getD (strUpper e ++ " File")) := by
  refine ⟨rfl, rfl, ?_⟩
  intro e
  by_cases h1 : e = "pdf"
  · subst h1
    decide
  by_cases h2 : e = "doc"
  · subst h2
    decide
  by_cases h3 : e = "docx"
  · subst h3
    decide
  by_cases h4 : e = "xls"
  · subst h4
    decide
  by_cases h5 : e = "xlsx"
  · subst h5
    decide
  by_cases h6 : e = "ppt"
  · subst h6
    decide
  by_cases h7 : e = "pptx"
  · subst h7
    decide
  by_cases h8 : e = "txt"
  · subst h8
    decide
  by_cases h9 : e = "md"
  · subst h9
    decide
  by_cases h10 : e = "html"
  · subst h10
    decide
  by_cases h11 : e = "htm"
  · subst h11
    decide
  by_cases h12 : e = "css"
  · subst h12
    decide
  by_cases h13 : e = "js"
  · subst h13
    decide
  by_cases h14 : e = "ts"
  · subst h14
    decide
  by_cases h15 : e = "json"
  · subst h15
    decide
  by_cases h16 : e = "py"
  · subst h16
    decide
  by_cases h17 : e = "rs"
  · subst h17
    decide
  by_cases h18 : e = "swift"
  · subst h18
    decide
  by_cases h19 : e = "java"
  · subst h19
    decide
  by_cases h20 : e = "go"
  · subst h20
    decide
  by_cases h21 : e = "c"
  · subst h21
    decide
  by_cases h22 : e = "h"
  · subst h22
    decide
  by_cases h23 : e = "cpp"
  · subst h23
    decide
  by_cases h24 : e = "hpp"
  · subst h24
    decide
  by_cases h25 : e = "jpg"
  · subst h25
    decide
  by_cases h26 : e = "jpeg"
  · subst h26
    decide
  by_cases h27 : e = "png"
  · subst h27
    decide
  by_cases h28 : e = "gif"
  · subst h28
    decide
  by_cases h29 : e = "heic"
  · subst h29
    decide
  by_cases h30 : e = "svg"
  · subst h30
    decide
  by_cases h31 : e = "mp4"
  · subst h31
    decide
  by_cases h32 : e = "mov"
  · subst h32
    decide
  by_cases h33 : e = "mp3"
  · subst h33
    decide
  by_cases h34 : e = "wav"
  · subst h34
    decide
  by_cases h35 : e = "zip"
  · subst h35
    decide
  by_cases h36 : e = "dmg"
  · subst h36
    decide
  by_cases h37 : e = "app"
  · subst h37
    decide
  have b1 : (e == "pdf") = false := beq_eq_false_iff_ne.mpr h1
  have b2 : (e == "doc") = false := beq_eq_false_iff_ne.mpr h2
  have b3 : (e == "docx") = false := beq_eq_false_iff_ne.mpr h3
  have b4 : (e == "xls") = false := beq_eq_false_iff_ne.mpr h4
  have b5 : (e == "xlsx") = false := beq_eq_false_iff_ne.mpr h5
  have b6 : (e == "ppt") = false := beq_eq_false_iff_ne.mpr h6
  have b7 : (e == "pptx") = false := beq_eq_false_iff_ne.mpr h7
  have b8 : (e == "txt") = false := beq_eq_false_iff_ne.mpr h8
  have b9 : (e == "md") = false := beq_eq_false_iff_ne.mpr h9
  have b10 : (e == "html") = false := beq_eq_false_iff_ne.mpr h10
  have b11 : (e == "htm") = false := beq_eq_false_iff_ne.mpr h11
  have b12 : (e == "css") = false := beq_eq_false_iff_ne.mpr h12
  have b13 : (e == "js") = false := beq_eq_false_iff_ne.mpr h13
  have b14 : (e == "ts") = false := beq_eq_false_iff_ne.mpr h14
  have b15 : (e == "json") = false := beq_eq_false_iff_ne.mpr h15
  have b16 : (e == "py") = false := beq_eq_false_iff_ne.mpr h16
  have b17 : (e == "rs") = false := beq_eq_false_iff_ne.mpr h17
  have b18 : (e == "swift") = false := beq_eq_false_iff_ne.mpr h18
  have b19 : (e == "java") = false := beq_eq_false_iff_ne.mpr h19
  have b20 : (e == "go") = false := beq_eq_false_iff_ne.mpr h20
  have b21 : (e == "c") = false := beq_eq_false_iff_ne.mpr h21
  have b22 : (e == "h") = false := beq_eq_false_iff_ne.mpr h22
  have b23 : (e == "cpp") = false := beq_eq_false_iff_ne.mpr h23
  have b24 : (e == "hpp") = false := beq_eq_false_iff_ne.mpr h24
  have b25 : (e == "jpg") = false := beq_eq_false_iff_ne.mpr h25
  have b26 : (e == "jpeg") = false := beq_eq_false_iff_ne.mpr h26
  have b27 : (e == "png") = false := beq_eq_false_iff_ne.mpr h27
  have b28 : (e == "gif") = false := beq_eq_false_iff_ne.mpr h28
  have b29 : (e == "heic") = false := beq_eq_false_iff_ne.mpr h29
  have b30 : (e == "svg") = false := beq_eq_false_iff_ne.mpr h30
  have b31 : (e == "mp4") = false := beq_eq_false_iff_ne.mpr h31
  have b32 : (e == "mov") = false := beq_eq_false_iff_ne.mpr h32
  have b33 : (e == "mp3") = false := beq_eq_false_iff_ne.mpr h33
  have b34 : (e == "wav") = false := beq_eq_false_iff_ne.mpr h34
  have b35 : (e == "zip") = false := beq_eq_false_iff_ne.mpr h35
  have b36 : (e == "dmg") = false := beq_eq_false_iff_ne.mpr h36
  have b37 : (e == "app") = false := beq_eq_false_iff_ne.mpr h37
  have hnone : kindTable.lookup e = none := by
    simp [kindTable, List.lookup, b1, b2, b3, b4, b5, b6, b7, b8, b9, b10, b11, b12, b13, b14, b15, b16, b17, b18, b19, b20, b21, b22, b23, b24, b25, b26, b27, b28, b29, b30, b31, b32, b33, b34, b35, b36, b37]
  rw [hnone]
  unfold get_file_kind
  split <;> simp_all

/-- Counterexample to C8 as stated: the code does not lowercase the extension
before the table match, so the uppercase-extension path `report.PDF` is
classified `"PDF File"` while the spec-predicted lowercase inspection
(`classify_kind_spec`) yields `"PDF Document"`. -/
theorem get_file_kind_not_lowercased :
    classify_kind_spec (some "PDF") false = "PDF Document" ∧
    get_file_kind (some "PDF") false = "PDF File" ∧
    get_file_kind (some "PDF") false ≠ classify_kind_spec (some "PDF") false := by
  refine ⟨by decide, by decide, by decide⟩

/-- C7 (amended): the `rebuild_index` callback accepts an entry with an
extension exactly when the lowercased extension is in the allowlist — whether
or not the entry is a directory — and accepts an extensionless entry exactly
when it is not resolved to a regular file (so extensionless directories are
accepted and extensionless files are skipped). -/
theorem rebuild_accepts_iff (entry : DirEntry) :
    rebuild_accepts entry = true ↔
      ((∃ ext, entry.path_ext = some ext ∧
          allowed_extensions.contains (strLower ext) = true) ∨
       (entry.path_ext = none ∧
          (entry.file_type.map FileType.is_file).getD false = false)) := by
  cases hx : entry.path_ext with
  | none => simp [rebuild_accepts, hx]
  | some ext => simp [rebuild_accepts, hx]

/-- Witness for C7 on an allowlisted PDF file entry. -/
theorem rebuild_accepts_iff_witness : rebuild_accepts pdfEntryC7 = true :=
  (rebuild_accepts_iff pdfEntryC7).mpr (Or.inl ⟨"pdf", rfl, by decide⟩)

/-- Counterexample to C7 as stated: a directory named `Photos.old` has the
extension `old`, which is not in the allowlist, so the callback skips it even
though it is a directory — directories are not always accepted. -/
theorem rebuild_skips_suffixed_directory :
    (oldDirEntry.file_type.map FileType.is_dir).getD false = true ∧
    (oldDirEntry.metadata.map Metadata.is_dir).getD false = true ∧
    rebuild_accepts oldDirEntry = false ∧
    rebuild_result oldDirEntry = none := by
  refine ⟨by decide, by decide, by decide, by decide⟩

/-- C9 (amended): a `SearchResult` built by the search callback carries
`file_size` equal to the entry's metadata length when the metadata is
readable — also for folders — and `0` only when the metadata is unreadable;
a `SearchResult` built by the rebuild callback always carries the metadata
length (entries with unreadable metadata are not pushed at all). -/
theorem file_size_matches_metadata (score : Int) (entry : DirEntry) :
    (search_mk score entry).file_size = (entry.metadata.map Metadata.len).getD 0 ∧
    (rebuild_result entry).all
      (fun r => r.file_size == (entry.metadata.map Metadata.len).getD 0) = true := by
  constructor
  · cases h : entry.metadata <;> simp [search_mk, h]
  · unfold rebuild_result
    split
    · cases h : entry.metadata <;> simp [h]
    · rfl

/-- Counterexample to C9 as stated: a folder whose directory metadata reports
96 bytes flows through `search_files` into a result with `is_folder = true`
and `file_size = 96`, not `0`. -/
theorem search_files_folder_nonzero_size :
    search_files (fun _ _ => some 1) "p" [folderEntryC9] =
      [search_mk 1 folderEntryC9] ∧
    (search_mk 1 folderEntryC9).is_folder = true ∧
    (search_mk 1 folderEntryC9).file_size = 96 := by
  refine ⟨by decide, by decide, by decide⟩

/-- Witness for the amended C3 theorem, applying its window clause to the one
entry the concrete call returns. -/
theorem get_recent_files_window_sorted_witness :
    (1000000 : Int) - 604800 < futureResult.date_value :=
  (get_recent_files_window_sorted futureCacheFile 1000000).1 futureResult (by decide)
